import Mathlib

/-!
Verification of the `nolcrawler` core (`nol_lib.py`) against its
natural-language specification.

The Python source is shallowly embedded: the direct-mapped read cache
(`ReadCache`), the crawler's index-to-page routing (`NolCrawler.get_course`,
`NolCrawler.get_cache_addr`), the field-extraction helpers of `make_course`
(`safe_str`, `safe_int`, the credit-era branch, the change-status marker
test), and the schedule-string decoder `read_time_clsrom` are translated
into executable Lean definitions.  Python exceptions (assertion failures,
`ValueError`, index errors, propagated loader failures) are modelled with
`Except String`; Python's heterogeneous tuples are modelled with dedicated
inductive types where a field can hold values of two shapes.
-/

/-! ## The direct-mapped read-through cache (`ReadCache`, nol_lib.py lines 11-32) -/

/-- One slot of the cache: the Python triple `(valid, addr, value)`, where
the address and the value start out as `None`. -/
structure Slot (α : Type) where
  valid : Bool
  addr : Option Int
  value : Option α
deriving DecidableEq

/-- The cache object: its fixed slot count `size` and the slot list
`cache` (`self.cache`, a Python list of length `size`). -/
structure ReadCache (α : Type) where
  size : Nat
  cache : List (Slot α)
deriving DecidableEq

/-- `ReadCache.__init__` / `ReadCache.reset`: every slot is
`(False, None, None)`. -/
def ReadCache.mkEmpty (α : Type) (size : Nat) : ReadCache α :=
  ⟨size, List.replicate size ⟨false, none, none⟩⟩

/-- `ReadCache.reset` discards all cached pages. -/
def ReadCache.reset (c : ReadCache α) : ReadCache α :=
  ReadCache.mkEmpty α c.size

/-- `ReadCache.invalidate(addr)`: clear slot `addr % size` when it is valid
and holds exactly `addr`; no-op otherwise.  Python's `%` on ints agrees with
`Int.emod` for a positive modulus.  (The out-of-range read branch is
unreachable while `cache.length = size > 0`.) -/
def ReadCache.invalidate (c : ReadCache α) (addr : Int) : ReadCache α :=
  let index := (addr.emod (c.size : Int)).toNat
  match c.cache[index]? with
  | some slot =>
    if slot.valid ∧ slot.addr = some addr then
      ⟨c.size, c.cache.set index ⟨false, none, none⟩⟩
    else c
  | none => c

/-- `ReadCache.load(addr, miss_func, user_data)`.  The third component of
the result counts how many times `miss_func` was invoked during the call
(0 on a hit, 1 on a miss), making the side effect of the Python call
explicit.  A failing loader (`Except.error`) propagates and the returned
cache is exactly the input cache, mirroring the Python exception unwinding
before the slot assignment. -/
def ReadCache.load (c : ReadCache α) (addr : Int) (miss_func : υ → Except String α)
    (user_data : υ) : Except String (Option α) × ReadCache α × Nat :=
  let index := (addr.emod (c.size : Int)).toNat
  match c.cache[index]? with
  | none => (Except.error "IndexError", c, 0)
  | some slot =>
    if slot.valid ∧ slot.addr = some addr then
      (Except.ok slot.value, c, 0)
    else
      match miss_func user_data with
      | Except.error e => (Except.error e, c, 1)
      | Except.ok value =>
        (Except.ok (some value),
         ⟨c.size, c.cache.set index ⟨true, some addr, some value⟩⟩, 1)

/-! ## Crawler routing (`NolCrawler`, nol_lib.py lines 129-131 and 411-414) -/

/-- `NolCrawler.items_per_page`. -/
def NolCrawler.items_per_page : Nat := 15

/-- `NolCrawler.get_cache_addr(index) = int(index / 15)`: Python's
float-division-then-truncate, modelled as exact truncation toward zero
(`Int.tdiv`); the two agree on every index small enough to be exact in a
double, which covers all real course indices. -/
def NolCrawler.get_cache_addr (index : Int) : Int :=
  Int.tdiv index (NolCrawler.items_per_page : Int)

/-- The tail of `NolCrawler.get_course` (nol_lib.py lines 411-414).  The
page loader `get_page` (network fetch + parse, an external collaborator) is
abstract; pages are lists of records of type `κ`.  As in `ReadCache.load`,
the `Nat` counts loader invocations.  Subscripting a `None` page or an
out-of-range position would raise in Python and is an `Except.error` here;
both are unreachable while the cache invariant holds. -/
def NolCrawler.get_course (cache : ReadCache (List κ))
    (get_page : Int → Except String (List κ)) (index : Int) :
    Except String (Option κ) × ReadCache (List κ) × Nat :=
  if index < 0 then (Except.ok none, cache, 0)
  else
    match ReadCache.load cache (NolCrawler.get_cache_addr index) get_page index with
    | (Except.error e, c, n) => (Except.error e, c, n)
    | (Except.ok none, c, n) => (Except.error "TypeError", c, n)
    | (Except.ok (some courses), c, n) =>
      match courses[(index.emod (NolCrawler.items_per_page : Int)).toNat]? with
      | some course => (Except.ok (some course), c, n)
      | none => (Except.error "IndexError", c, n)

/-! ## Extraction helpers of `make_course` (nol_lib.py lines 138-142, 177-180, 346-356) -/

/-- Python `x.strip('\xa0')` on a character list: drop the non-breaking
placeholder from both ends. -/
def stripNbsp (cs : List Char) : List Char :=
  ((cs.dropWhile (fun c => c = '\xa0')).reverse.dropWhile (fun c => c = '\xa0')).reverse

/-- `safe_str(x)`: `''` for `None`, otherwise `x.strip('\xa0')`. -/
def safe_str (x : Option String) : String :=
  match x with
  | none => ""
  | some s => String.mk (stripNbsp s.data)

/-- `safe_int(x)`: the sentinel `0` when `safe_str(x)` is empty, otherwise
Python `int(x)` on the original string.  The `int` builtin is external and
is passed in as `pyInt` (it may fail with `ValueError`). -/
def safe_int (pyInt : String → Except String Int) (x : Option String) :
    Except String Int :=
  if safe_str x = "" then Except.ok 0 else pyInt (x.getD "")

/-- The credit cell is parsed by one of two external number parsers; this
type records which one the extractor chose (nol_lib.py lines 177-180). -/
inductive Credit (F I : Type) where
  | asFloat (v : F)
  | asInt (v : I)
deriving DecidableEq

/-- True exactly on the `float` branch of the credit extraction. -/
def Credit.isFloatBranch : Credit F I → Bool
  | .asFloat _ => true
  | .asInt _ => false

/-- The era branch of the credit field: `float(cells[6].text)` when
`sem_year >= 106 or (sem_year == 105 and sem_index >= 2)`, else
`safe_int(cells[6].text)`.  The two cell parsers are abstract. -/
def credit_of (sem_year sem_index : Int) (toFloat : Option String → F)
    (toInt : Option String → I) (cell : Option String) : Credit F I :=
  if sem_year ≥ 106 ∨ (sem_year = 105 ∧ sem_index ≥ 2) then
    Credit.asFloat (toFloat cell)
  else
    Credit.asInt (toInt cell)

/-- The change-status derivation (nol_lib.py lines 346-356).  A row is
modelled by the list of `src` attributes of its `img` descendants, the only
row feature this fragment consults: `len(row.xpath('.//img[@src=S]')) > 0`
is membership of `S`, and `len(row.xpath('.//img'))` is the list length.
The failed `assert` is an `Except.error`. -/
def co_chg_of (imgs : List String) : Except String (Option String) :=
  if imgs.contains "images/cancel.gif" then Except.ok (some "停開")
  else if imgs.contains "images/add.gif" then Except.ok (some "加開")
  else if imgs.contains "images/chg.gif" then Except.ok (some "異動")
  else if imgs.length = 0 ∨ imgs.contains "images/courseweb.gif" then Except.ok none
  else Except.error "AssertionError: unrecognized marker image"

/-! ## The schedule-string decoder (`read_time_clsrom`, nol_lib.py lines 195-331) -/

/-- The time component of a decoded entry.  Python is untyped: the loop
pushes a list of token strings, while the only-classroom fallback (line
323) pushes the empty string, so the field can hold either shape. -/
inductive TimeField where
  | str (s : String)
  | list (ts : List String)
deriving DecidableEq

/-- One decoded `(day, time, clsrom)` tuple. -/
abbrev Entry := String × TimeField × String

/-- The mutable locals of `read_time_clsrom`'s character loop. -/
structure DecSt where
  result : List Entry
  state : Nat
  brackets : Int
  time_dash : Bool
  day : String
  clsrom : String
  unexpected_clsrom : String
  time : List String
  uncommitted_time : String
deriving DecidableEq

/-- The initial loop state (lines 205-218): `state = 3`, everything else
empty/zero/false. -/
def DecSt.init : DecSt := ⟨[], 3, 0, false, "", "", "", [], ""⟩

/-- The seven weekday symbols accepted in day state (line 225). -/
def day_chars : List Char := ['一', '二', '三', '四', '五', '六', '日']

/-- The time-slot alphabet for semesters 104 and later:
`list('0123456789') + ['10'] + list('ABCD')` (line 210). -/
def time_list_new : List String :=
  ["0", "1", "2", "3", "4", "5", "6", "7", "8", "9", "10", "A", "B", "C", "D"]

/-- The time-slot alphabet for semesters before 104:
`list('01234@56789ABCD')` (line 213). -/
def time_list_old : List String :=
  ["0", "1", "2", "3", "4", "@", "5", "6", "7", "8", "9", "A", "B", "C", "D"]

/-- Python `str.isspace()` on the characters occurring in this data:
ASCII whitespace plus `\x0b`, `\x0c`, the no-break space, and the
ideographic space. -/
def pyIsSpace (c : Char) : Bool :=
  c.isWhitespace || c = '\x0b' || c = '\x0c' || c = '\xa0' || c = '　'

/-- Python `list.index` / `str.find` position search: the first position of
`x`, or `none` when absent (where `list.index` raises `ValueError`). -/
def pyIndexAux [DecidableEq β] (x : β) : List β → Option Nat
  | [] => none
  | y :: rest => if y = x then some 0 else (pyIndexAux x rest).map (· + 1)

/-- State 1, semesters 104 and later (lines 230-241): tokens are comma- or
parenthesis-delimited; a pending token is validated against the alphabet
when flushed. -/
def stepTimeNew (tl : List String) (st : DecSt) (c : Char) : Except String DecSt :=
  if c = ',' ∨ c = '(' then
    match (if st.uncommitted_time ≠ "" then
             if tl.contains st.uncommitted_time then
               Except.ok { st with time := st.time ++ [st.uncommitted_time],
                                   uncommitted_time := "" }
             else Except.error "AssertionError: pending token not in alphabet"
           else Except.ok st) with
    | Except.error e => Except.error e
    | Except.ok st' =>
      if c = '(' then
        Except.ok { st' with brackets := st'.brackets + 1, state := st'.state + 1 }
      else Except.ok st'
  else
    Except.ok { st with uncommitted_time := st.uncommitted_time.push c }

/-- State 1, semesters before 104 (lines 245-287): commas ignored, `-`
arms the dash-range flag, `*` is a standalone wildcard, and a valid
alphabet character is appended, range-expanded, or buffered as the first
half of the two-character `10` token. -/
def stepTimeOld (tl : List String) (st : DecSt) (c : Char) : Except String DecSt :=
  if c = ',' then Except.ok st
  else if c = '-' then
    if st.uncommitted_time = "" then Except.ok { st with time_dash := true }
    else Except.error "AssertionError: dash after pending token"
  else if c = '*' then
    if st.uncommitted_time = "" then Except.ok { st with time := st.time ++ ["*"] }
    else Except.error "AssertionError: star after pending token"
  else if c = '(' then
    Except.ok { st with brackets := st.brackets + 1, state := st.state + 1,
                        uncommitted_time := "" }
  else if tl.contains (String.singleton c) then
    match st.time.getLast? with
    | none => Except.ok { st with time := st.time ++ [String.singleton c] }
    | some lastTok =>
      match pyIndexAux lastTok tl with
      | none => Except.error "ValueError: token not in alphabet"
      | some time_prev =>
        match (if st.uncommitted_time = "" then
                 match pyIndexAux (String.singleton c) tl with
                 | some i => Except.ok (i, st)
                 | none => Except.error "ValueError: char not in alphabet"
               else
                 if st.uncommitted_time ++ String.singleton c = "10" then
                   match pyIndexAux "A" tl with
                   | some i => Except.ok (i, { st with uncommitted_time := "" })
                   | none => Except.error "ValueError: A not in alphabet"
                 else Except.error "AssertionError: two-digit token other than 10") with
        | Except.error e => Except.error e
        | Except.ok (time_this, st') =>
          if time_this ≤ time_prev ∧ c = '1' then
            Except.ok { st' with uncommitted_time := st'.uncommitted_time.push c }
          else if st'.time_dash then
            if st'.time.length = 1 then
              Except.ok { st' with
                time := (tl.drop time_prev).take (time_this + 1 - time_prev) }
            else Except.error "AssertionError: dash range after several tokens"
          else
            Except.ok { st' with time := st'.time ++ [tl.getD time_this ""] }
  else Except.error "AssertionError: invalid time character"

/-- State 2, classroom accumulation (lines 288-301): track nesting, keep
nested text verbatim, and complete the entry when nesting returns to
zero. -/
def stepClsrom (st : DecSt) (c : Char) : Except String DecSt :=
  let b := if c = '(' then st.brackets + 1
           else if c = ')' then st.brackets - 1
           else st.brackets
  if b > 0 then Except.ok { st with brackets := b, clsrom := st.clsrom.push c }
  else if b = 0 then
    Except.ok { st with
      brackets := b,
      result := st.result ++ [(st.day, TimeField.list st.time, st.clsrom)],
      day := "", clsrom := "", time := [], state := st.state + 1 }
  else Except.error "AssertionError: negative nesting in classroom"

/-- State 3, stray leading parentheticals (lines 302-313): content inside
brackets is collected in the side buffer `unexpected_clsrom`. -/
def stepStray (st : DecSt) (c : Char) : DecSt :=
  if c = '(' then
    { st with
      unexpected_clsrom :=
        if st.brackets > 0 then st.unexpected_clsrom.push c else st.unexpected_clsrom,
      brackets := st.brackets + 1 }
  else if c = ')' then
    { st with
      brackets := st.brackets - 1,
      unexpected_clsrom :=
        if st.brackets - 1 > 0 then st.unexpected_clsrom.push c
        else st.unexpected_clsrom }
  else
    { st with
      unexpected_clsrom :=
        if st.brackets > 0 then st.unexpected_clsrom.push c else st.unexpected_clsrom }

/-- One iteration of the character loop (lines 219-315): skip whitespace,
fall out of stray state on the first non-parenthesis character at nesting
zero, then dispatch on the current state. -/
def decodeStep (is104 : Bool) (tl : List String) (st : DecSt) (c : Char) :
    Except String DecSt :=
  if pyIsSpace c then Except.ok st
  else
    let st := if st.brackets = 0 ∧ st.state = 3 ∧ c ≠ '(' then { st with state := 0 }
              else st
    if st.state = 0 then
      if c ∈ day_chars then
        Except.ok { st with day := String.singleton c, state := st.state + 1 }
      else Except.error "AssertionError: invalid day symbol"
    else if st.state = 1 then
      if is104 then stepTimeNew tl st c else stepTimeOld tl st c
    else if st.state = 2 then stepClsrom st c
    else if st.state = 3 then Except.ok (stepStray st c)
    else Except.error "AssertionError: invalid state"

/-- Run the character loop over the whole text, stopping at the first
raised exception. -/
def decodeRun (is104 : Bool) (tl : List String) : DecSt → List Char → Except String DecSt
  | st, [] => Except.ok st
  | st, c :: cs =>
    match decodeStep is104 tl st c with
    | Except.error e => Except.error e
    | Except.ok st' => decodeRun is104 tl st' cs

/-- The epilogue after the character loop (lines 316-331): the unbalanced
trailing-parenthesis early return (Python `clsrom.endswith(')')`, i.e. the
last character of the accumulated classroom is `)`), the only-classroom
fallback (note the empty *string* time field), the sentinel-classroom
reattachment of the side buffer, and the final clean-state assertion. -/
def decodeFinish (st : DecSt) : Except String (List Entry) :=
  if st.clsrom.data.getLast? = some ')' ∧ st.brackets > 0 then
    Except.ok (st.result ++ [(st.day, TimeField.list st.time, st.clsrom)])
  else if st.day = "" ∧ st.time = [] ∧ st.clsrom = "" ∧ st.unexpected_clsrom ≠ "" ∧
          st.result.length = 0 then
    Except.ok (st.result ++ [("", TimeField.str "", st.unexpected_clsrom)])
  else
    let result :=
      if st.result.map (fun r => r.2.2) =
           List.replicate st.result.length "請洽系所辦" ∧ st.unexpected_clsrom ≠ "" then
        st.result.map (fun r => (r.1, r.2.1, st.unexpected_clsrom))
      else st.result
    if st.day = "" ∧ st.time = [] ∧ st.clsrom = "" ∧ st.brackets = 0 then
      Except.ok result
    else Except.error "AssertionError: unclean final state"

/-- The week-range preprocessing (lines 196-203): a leading `第 … 週`
block of digits, spaces, and commas is removed; a malformed block is an
assertion failure. -/
def strip_week_range (cs : List Char) : Except String (List Char) :=
  if cs.head? = some '第' then
    match pyIndexAux '週' cs with
    | none => Except.error "AssertionError: week range not closed"
    | some pEnd =>
      if 1 < pEnd then
        if ((cs.drop 1).take (pEnd - 1)).all
            (fun c => c ∈ ['0', '1', '2', '3', '4', '5', '6', '7', '8', '9', ' ', ',']) then
          Except.ok (cs.drop (pEnd + 1))
        else Except.error "AssertionError: invalid week range character"
      else Except.error "AssertionError: empty week range"
  else Except.ok cs

/-- `read_time_clsrom(text)` for a semester with year `sem_year` (the only
part of the semester identifier the decoder consults, line 208). -/
def read_time_clsrom (sem_year : Int) (text : String) : Except String (List Entry) :=
  match strip_week_range text.data with
  | Except.error e => Except.error e
  | Except.ok cs =>
    let is104 := sem_year ≥ 104
    let tl := if is104 then time_list_new else time_list_old
    match decodeRun is104 tl DecSt.init cs with
    | Except.error e => Except.error e
    | Except.ok st => decodeFinish st

/-! ## Claim C1: hit and miss behaviour of `ReadCache.load` -/

/-- C1: if the slot at index `addr mod size` is valid and stores exactly
`addr`, `load` returns the stored page with the loader never invoked and
the cache untouched; otherwise, when the loader succeeds with `v`, `load`
invokes it exactly once, stores `v` in that slot marked valid with address
`addr`, and returns `v`. -/
theorem readCache_load_hit_miss {α υ : Type} (c : ReadCache α) (addr : Int)
    (f : υ → Except String α) (u : υ) (slot : Slot α)
    (hget : c.cache[(addr.emod (c.size : Int)).toNat]? = some slot) :
    (slot.valid = true → slot.addr = some addr →
      ReadCache.load c addr f u = (Except.ok slot.value, c, 0)) ∧
    ((slot.valid = false ∨ slot.addr ≠ some addr) →
      ∀ v, f u = Except.ok v →
        ReadCache.load c addr f u =
          (Except.ok (some v),
           ⟨c.size, c.cache.set (addr.emod (c.size : Int)).toNat
              ⟨true, some addr, some v⟩⟩, 1)) := by
  constructor
  · intro hv ha
    simp only [ReadCache.load, hget]
    rw [if_pos ⟨hv, ha⟩]
  · intro hmiss v hfv
    have hneg : ¬(slot.valid ∧ slot.addr = some addr) := by
      rcases hmiss with h | h
      · intro hc
        rw [h] at hc
        exact Bool.false_ne_true hc.1
      · intro hc
        exact h hc.2
    simp only [ReadCache.load, hget]
    rw [if_neg hneg, hfv]

/-- C1 witness: a concrete hit (address 4 on a two-slot cache) returns the
stored page without a loader call, and a concrete miss (address 3) invokes
the loader once and overwrites the colliding slot. -/
theorem readCache_load_hit_miss_witness :
    ReadCache.load (⟨2, [⟨true, some 4, some 99⟩, ⟨false, none, none⟩]⟩ : ReadCache Nat)
        4 (fun u : Nat => Except.ok (u + 1)) 7 =
      (Except.ok (some 99), ⟨2, [⟨true, some 4, some 99⟩, ⟨false, none, none⟩]⟩, 0) ∧
    ReadCache.load (⟨2, [⟨true, some 4, some 99⟩, ⟨false, none, none⟩]⟩ : ReadCache Nat)
        3 (fun u : Nat => Except.ok (u + 1)) 7 =
      (Except.ok (some 8), ⟨2, [⟨true, some 4, some 99⟩, ⟨true, some 3, some 8⟩]⟩, 1) := by
  constructor
  · exact (@readCache_load_hit_miss Nat Nat
      ⟨2, [⟨true, some 4, some 99⟩, ⟨false, none, none⟩]⟩ 4
      (fun u : Nat => Except.ok (u + 1)) 7 ⟨true, some 4, some 99⟩ rfl).1 rfl rfl
  · exact (@readCache_load_hit_miss Nat Nat
      ⟨2, [⟨true, some 4, some 99⟩, ⟨false, none, none⟩]⟩ 3
      (fun u : Nat => Except.ok (u + 1)) 7 ⟨false, none, none⟩ rfl).2 (Or.inl rfl) 8 rfl

/-! ## Claim C7: a failing loader propagates and leaves the cache unchanged -/

/-- C7: when the slot for `addr` does not hold a valid copy of `addr` (so
the loader runs) and the loader fails, `load` propagates exactly that
failure, the returned cache is the input cache with every slot unchanged,
and a subsequent `load` for the same address invokes its loader again. -/
theorem readCache_load_failure {α υ υ₂ : Type} (c : ReadCache α) (addr : Int)
    (f : υ → Except String α) (u : υ) (slot : Slot α)
    (hget : c.cache[(addr.emod (c.size : Int)).toNat]? = some slot)
    (hmiss : slot.valid = false ∨ slot.addr ≠ some addr)
    (e : String) (hfe : f u = Except.error e) :
    ReadCache.load c addr f u = (Except.error e, c, 1) ∧
    ∀ (g : υ₂ → Except String α) (u₂ : υ₂), (ReadCache.load c addr g u₂).2.2 = 1 := by
  have hneg : ¬(slot.valid ∧ slot.addr = some addr) := by
    rcases hmiss with h | h
    · intro hc
      rw [h] at hc
      exact Bool.false_ne_true hc.1
    · intro hc
      exact h hc.2
  constructor
  · simp only [ReadCache.load, hget]
    rw [if_neg hneg, hfe]
  · intro g u₂
    simp only [ReadCache.load, hget]
    rw [if_neg hneg]
    cases g u₂ <;> rfl

/-- C7 witness: on a concrete two-slot cache, a failing loader for address
3 propagates its error with the cache bit-for-bit unchanged, and a retry
for address 3 invokes the (new) loader again. -/
theorem readCache_load_failure_witness :
    ReadCache.load (⟨2, [⟨true, some 4, some 99⟩, ⟨false, none, none⟩]⟩ : ReadCache Nat)
        3 (fun _ : Nat => (Except.error "boom" : Except String Nat)) 7 =
      (Except.error "boom", ⟨2, [⟨true, some 4, some 99⟩, ⟨false, none, none⟩]⟩, 1) ∧
    (ReadCache.load (⟨2, [⟨true, some 4, some 99⟩, ⟨false, none, none⟩]⟩ : ReadCache Nat)
        3 (fun u : Nat => Except.ok (u + 1)) 7).2.2 = 1 := by
  have h := @readCache_load_failure Nat Nat Nat
    ⟨2, [⟨true, some 4, some 99⟩, ⟨false, none, none⟩]⟩ 3
    (fun _ : Nat => (Except.error "boom" : Except String Nat)) 7
    ⟨false, none, none⟩ rfl (Or.inl rfl) "boom" rfl
  exact ⟨h.1, h.2 (fun u : Nat => Except.ok (u + 1)) 7⟩

/-! ## Claim C10: `load` and `invalidate` touch at most one slot -/

/-- C10: a single `load` or `invalidate` call for address `addr` modifies
at most the slot at index `addr mod size`; every other slot and the cache's
size are unchanged. -/
theorem readCache_frame_effect {α υ : Type} (c : ReadCache α) (addr : Int)
    (f : υ → Except String α) (u : υ) (j : Nat)
    (hj : j ≠ (addr.emod (c.size : Int)).toNat) :
    ((ReadCache.load c addr f u).2.1.size = c.size ∧
     (ReadCache.load c addr f u).2.1.cache[j]? = c.cache[j]?) ∧
    ((ReadCache.invalidate c addr).size = c.size ∧
     (ReadCache.invalidate c addr).cache[j]? = c.cache[j]?) := by
  constructor
  · simp only [ReadCache.load]
    cases hc : c.cache[(addr.emod (c.size : Int)).toNat]? with
    | none => exact ⟨rfl, rfl⟩
    | some slot =>
      dsimp only
      by_cases hhit : slot.valid ∧ slot.addr = some addr
      · rw [if_pos hhit]
        exact ⟨rfl, rfl⟩
      · rw [if_neg hhit]
        cases f u with
        | error e => exact ⟨rfl, rfl⟩
        | ok v =>
          exact ⟨rfl, List.getElem?_set_ne (fun h => hj h.symm)⟩
  · simp only [ReadCache.invalidate]
    cases hc : c.cache[(addr.emod (c.size : Int)).toNat]? with
    | none => exact ⟨rfl, rfl⟩
    | some slot =>
      dsimp only
      by_cases hhit : slot.valid ∧ slot.addr = some addr
      · rw [if_pos hhit]
        exact ⟨rfl, List.getElem?_set_ne (fun h => hj h.symm)⟩
      · rw [if_neg hhit]
        exact ⟨rfl, rfl⟩

/-- C10 witness: on a concrete two-slot cache, a miss-storing `load` at
address 3 (slot 1) and an `invalidate` at address 4 (slot 0) both leave the
other slot and the size unchanged. -/
theorem readCache_frame_effect_witness :
    ((ReadCache.load (⟨2, [⟨true, some 4, some 99⟩, ⟨false, none, none⟩]⟩ : ReadCache Nat)
        3 (fun u : Nat => Except.ok (u + 1)) 7).2.1.size = 2 ∧
     (ReadCache.load (⟨2, [⟨true, some 4, some 99⟩, ⟨false, none, none⟩]⟩ : ReadCache Nat)
        3 (fun u : Nat => Except.ok (u + 1)) 7).2.1.cache[0]? = some ⟨true, some 4, some 99⟩) ∧
    ((ReadCache.invalidate (⟨2, [⟨true, some 4, some 99⟩, ⟨false, none, none⟩]⟩ : ReadCache Nat)
        4).size = 2 ∧
     (ReadCache.invalidate (⟨2, [⟨true, some 4, some 99⟩, ⟨false, none, none⟩]⟩ : ReadCache Nat)
        4).cache[1]? = some ⟨false, none, none⟩) := by
  constructor
  · have h := (readCache_frame_effect
      (⟨2, [⟨true, some 4, some 99⟩, ⟨false, none, none⟩]⟩ : ReadCache Nat) 3
      (fun u : Nat => Except.ok (u + 1)) 7 0 (by decide)).1
    exact ⟨h.1, h.2⟩
  · have h := (readCache_frame_effect
      (⟨2, [⟨true, some 4, some 99⟩, ⟨false, none, none⟩]⟩ : ReadCache Nat) 4
      (fun u : Nat => Except.ok (u + 1)) 7 1 (by decide)).2
    exact ⟨h.1, h.2⟩

/-! ## Claim C6: index-to-page routing of `get_course` -/

/-- C6: a negative index returns the absent result with the cache untouched
and the loader never invoked; a nonnegative index `i` is routed to cache
address `i / 15` (`items_per_page = 15`), and whatever page the cache call
yields is sliced at local offset `i % 15`. -/
theorem get_course_routing {κ : Type} (c : ReadCache (List κ))
    (f : Int → Except String (List κ)) (i : Int) :
    (i < 0 → NolCrawler.get_course c f i = (Except.ok none, c, 0)) ∧
    (0 ≤ i →
      NolCrawler.get_cache_addr i = ((i.toNat / NolCrawler.items_per_page : Nat) : Int) ∧
      ∀ (page : List κ) (c' : ReadCache (List κ)) (n : Nat) (el : κ),
        ReadCache.load c ((i.toNat / NolCrawler.items_per_page : Nat) : Int) f i =
          (Except.ok (some page), c', n) →
        page[i.toNat % NolCrawler.items_per_page]? = some el →
        NolCrawler.get_course c f i = (Except.ok (some el), c', n)) := by
  constructor
  · intro hneg
    simp only [NolCrawler.get_course]
    rw [if_pos hneg]
  · intro hpos
    obtain ⟨m, rfl⟩ := Int.eq_ofNat_of_zero_le hpos
    have haddr : NolCrawler.get_cache_addr ((m : Nat) : Int) =
        (((m : Nat) : Int).toNat / NolCrawler.items_per_page : Nat) := by
      rfl
    have hmod : (((m : Nat) : Int).emod (NolCrawler.items_per_page : Int)).toNat =
        ((m : Nat) : Int).toNat % NolCrawler.items_per_page := by
      rfl
    refine ⟨haddr, ?_⟩
    intro page c' n el hload hel
    simp only [NolCrawler.get_course]
    rw [if_neg (by omega), haddr, hload]
    dsimp only
    rw [hmod, hel]

/-- C6 witness: with a fresh two-slot cache and a loader returning the page
`[0, …, 14]`, index `-3` yields `none` with no loader call, and index `17`
routes to address `1`, misses, and returns element `17 % 15 = 2` of the
loaded page. -/
theorem get_course_routing_witness :
    NolCrawler.get_course (ReadCache.mkEmpty (List Nat) 2)
        (fun _ => Except.ok (List.range 15)) (-3) =
      (Except.ok none, ReadCache.mkEmpty (List Nat) 2, 0) ∧
    NolCrawler.get_course (ReadCache.mkEmpty (List Nat) 2)
        (fun _ => Except.ok (List.range 15)) 17 =
      (Except.ok (some 2),
       ⟨2, [⟨false, none, none⟩, ⟨true, some 1, some (List.range 15)⟩]⟩, 1) := by
  constructor
  · exact (get_course_routing (ReadCache.mkEmpty (List Nat) 2)
      (fun _ => Except.ok (List.range 15)) (-3)).1 (by decide)
  · exact ((get_course_routing (ReadCache.mkEmpty (List Nat) 2)
      (fun _ => Except.ok (List.range 15)) 17).2 (by decide)).2
      (List.range 15) ⟨2, [⟨false, none, none⟩, ⟨true, some 1, some (List.range 15)⟩]⟩
      1 2 (by rfl) (by rfl)

/-! ## Claim C9: empty integer cells and the credit-era branch -/

/-- C9: an empty integer cell (empty after `None`-handling and `\xa0`
stripping) yields the sentinel `0` no matter what the external `int` parser
would do, and the credit cell's parser choice depends only on the semester
identifier — it is the fractional parser exactly from semester 105-2
onward, for any cell content. -/
theorem safe_int_credit_era :
    (∀ (pyInt : String → Except String Int) (x : Option String),
        safe_str x = "" → safe_int pyInt x = Except.ok 0) ∧
    (∀ (F I : Type) (tf : Option String → F) (ti : Option String → I)
        (sy si : Int) (cell cell' : Option String),
        (credit_of sy si tf ti cell).isFloatBranch =
          (credit_of sy si tf ti cell').isFloatBranch ∧
        ((credit_of sy si tf ti cell).isFloatBranch = true ↔
          (105 < sy ∨ (sy = 105 ∧ 2 ≤ si)))) := by
  constructor
  · intro pyInt x h
    simp only [safe_int]
    rw [if_pos h]
  · intro F I tf ti sy si cell cell'
    by_cases h : sy ≥ 106 ∨ (sy = 105 ∧ si ≥ 2)
    · have e1 : credit_of sy si tf ti cell = Credit.asFloat (tf cell) := by
        unfold credit_of
        rw [if_pos h]
      have e2 : credit_of sy si tf ti cell' = Credit.asFloat (tf cell') := by
        unfold credit_of
        rw [if_pos h]
      rw [e1, e2]
      exact ⟨rfl, ⟨fun _ => by omega, fun _ => rfl⟩⟩
    · have e1 : credit_of sy si tf ti cell = Credit.asInt (ti cell) := by
        unfold credit_of
        rw [if_neg h]
      have e2 : credit_of sy si tf ti cell' = Credit.asInt (ti cell') := by
        unfold credit_of
        rw [if_neg h]
      rw [e1, e2]
      exact ⟨rfl, ⟨fun hc => absurd hc Bool.false_ne_true, fun hp => absurd hp (by omega)⟩⟩

/-- C9 witness: a cell holding only the `\xa0` placeholder maps to the
sentinel `0` even under an always-failing `int`, and at the threshold
semester 105-2 the credit parser is the fractional one for two different
cell contents. -/
theorem safe_int_credit_era_witness :
    safe_int (fun _ => Except.error "ValueError") (some "\xa0") = Except.ok 0 ∧
    (credit_of 105 2 (fun _ => "f") (fun _ => (0 : Nat)) none).isFloatBranch =
      (credit_of 105 2 (fun _ => "f") (fun _ => (0 : Nat)) (some "3")).isFloatBranch ∧
    ((credit_of 105 2 (fun _ => "f") (fun _ => (0 : Nat)) none).isFloatBranch = true ↔
      (105 < (105 : Int) ∨ ((105 : Int) = 105 ∧ (2 : Int) ≤ 2))) := by
  refine ⟨safe_int_credit_era.1 (fun _ => Except.error "ValueError") (some "\xa0") (by decide), ?_⟩
  exact safe_int_credit_era.2 String Nat (fun _ => "f") (fun _ => (0 : Nat)) 105 2 none (some "3")

/-! ## Claim C2: dash-range expansion in the older-era time grammar -/

/-- C2: evaluating the decoder (older era, semester year 103) on the
spec's canonical input `"二1-4(普101)三5@(普102)"`.  The dash range in the
first entry expands to `["1","2","3","4"]` as claimed, but the claim's
second entry `("三", ["5","@"], "普102")` is not produced: `time_dash` is
set by the dash and never reset (nol_lib.py lines 214, 249, 278-281), so
the `@` after `5` is treated as a range end and the slice
`time_list[6:6]` leaves the second entry's time list empty. -/
theorem read_time_clsrom_dash_leak_eval :
    read_time_clsrom 103 "二1-4(普101)三5@(普102)" =
      Except.ok [("二", TimeField.list ["1", "2", "3", "4"], "普101"),
                 ("三", TimeField.list [], "普102")] := by
  rfl

/-! ## Claim C3: reattachment of the stray side buffer -/

/-- C3: after a run of the main loop that ends cleanly (accumulators empty,
nesting zero) with at least one parsed entry, the epilogue replaces every
entry's classroom with the side buffer exactly when the buffer is non-empty
and every parsed classroom equals the sentinel `"請洽系所辦"`; otherwise the
buffer is discarded and the classrooms are unchanged.  The second conjunct
runs the full decoder on the spec's example with a stray leading
parenthetical. -/
theorem decode_side_buffer_reattach :
    (∀ st : DecSt, st.day = "" → st.time = [] → st.clsrom = "" → st.brackets = 0 →
      st.result ≠ [] →
      decodeFinish st =
        Except.ok
          (if st.unexpected_clsrom ≠ "" ∧ (∀ r ∈ st.result, r.2.2 = "請洽系所辦") then
            st.result.map (fun r => (r.1, r.2.1, st.unexpected_clsrom))
          else st.result)) ∧
    read_time_clsrom 103 "(多出資訊)一1(請洽系所辦)" =
      Except.ok [("一", TimeField.list ["1"], "多出資訊")] := by
  constructor
  · intro st hday htime hcl hbr hres
    have hmap : (st.result.map (fun r => r.2.2) =
        List.replicate st.result.length "請洽系所辦") ↔
        (∀ r ∈ st.result, r.2.2 = "請洽系所辦") := by
      constructor
      · intro h r hr
        have hb : r.2.2 ∈ st.result.map (fun r => r.2.2) :=
          List.mem_map_of_mem _ hr
        rw [h] at hb
        exact List.eq_of_mem_replicate hb
      · intro h
        refine List.eq_replicate_iff.mpr ⟨by simp, fun b hb => ?_⟩
        obtain ⟨r, hr, rfl⟩ := List.mem_map.mp hb
        exact h r hr
    have h1 : ¬(st.clsrom.data.getLast? = some ')' ∧ st.brackets > 0) := by
      rw [hcl]
      exact fun hc => absurd hc.1 (by decide)
    have h2 : ¬(st.day = "" ∧ st.time = [] ∧ st.clsrom = "" ∧
        st.unexpected_clsrom ≠ "" ∧ st.result.length = 0) :=
      fun hc => hres (List.length_eq_zero.mp hc.2.2.2.2)
    simp only [decodeFinish]
    rw [if_neg h1, if_neg h2, if_pos ⟨hday, htime, hcl, hbr⟩]
    exact congrArg Except.ok (if_congr (by rw [hmap]; exact and_comm) rfl rfl)
  · rfl

/-- C3 witness: a clean final state with one sentinel-classroom entry and
side buffer `"多出資訊"` has its classroom replaced. -/
theorem decode_side_buffer_reattach_witness :
    decodeFinish ⟨[("一", TimeField.list ["1"], "請洽系所辦")], 3, 0, false, "", "",
        "多出資訊", [], ""⟩ =
      Except.ok [("一", TimeField.list ["1"], "多出資訊")] := by
  have h := decode_side_buffer_reattach.1
    ⟨[("一", TimeField.list ["1"], "請洽系所辦")], 3, 0, false, "", "", "多出資訊", [], ""⟩
    rfl rfl rfl rfl (by decide)
  rw [h, if_pos ⟨by decide, by decide⟩]
  rfl

/-! ## Claim C4: the unbalanced-trailing-parenthesis early return -/

/-- C4 counterexample: the input `"一1(室"` ends mid-classroom with
parenthesis nesting still positive, yet the decoder raises the final
clean-state assertion instead of returning the partial entry
`("一", ["1"], "室")` — the early return additionally requires the
accumulated classroom text to end with `)`, which `"室"` does not. -/
theorem decode_unbalanced_counterexample :
    read_time_clsrom 103 "一1(室" =
      Except.error "AssertionError: unclean final state" := by
  rfl

/-- C4 (amended): when the loop ends with positive nesting AND the
accumulated classroom text ends with a closing parenthesis, the decoder
emits the entry accumulated so far and returns immediately, bypassing the
clean-state check.  The second conjunct exercises this end to end on
`"一1((普)"`, whose classroom keeps the unmatched nested text. -/
theorem decode_unbalanced_trailing_paren :
    (∀ st : DecSt, st.clsrom.data.getLast? = some ')' → st.brackets > 0 →
      decodeFinish st =
        Except.ok (st.result ++ [(st.day, TimeField.list st.time, st.clsrom)])) ∧
    read_time_clsrom 103 "一1((普)" =
      Except.ok [("一", TimeField.list ["1"], "(普)")] := by
  constructor
  · intro st h1 h2
    simp only [decodeFinish]
    rw [if_pos ⟨h1, h2⟩]
  · rfl

/-- C4 witness: the loop state reached by `"一1((普)"` (classroom `"(普)"`,
nesting 1) is flushed by the early return. -/
theorem decode_unbalanced_trailing_paren_witness :
    decodeFinish ⟨[], 2, 1, false, "一", "(普)", "", ["1"], ""⟩ =
      Except.ok [("一", TimeField.list ["1"], "(普)")] :=
  decode_unbalanced_trailing_paren.1 ⟨[], 2, 1, false, "一", "(普)", "", ["1"], ""⟩
    (by decide) (by decide)

/-! ## Claim C5: the only-classroom fallback entry -/

/-- C5 counterexample: on `"(室)"` the decoder emits the fallback entry,
but its time component is the empty string (Python `('', '', …)`,
nol_lib.py line 323), not the empty list the claim states. -/
theorem decode_only_classroom_counterexample :
    read_time_clsrom 103 "(室)" = Except.ok [("", TimeField.str "", "室")] ∧
    TimeField.str "" ≠ TimeField.list [] := by
  exact ⟨by rfl, by decide⟩

/-- C5 (amended): when the loop ends with day, time and classroom all
empty, no entries produced, and a non-empty side buffer, the decoder
returns exactly one entry with empty day, the empty *string* as time
component, and the side buffer as classroom. -/
theorem decode_only_classroom_fallback (st : DecSt)
    (hday : st.day = "") (htime : st.time = []) (hcl : st.clsrom = "")
    (hunx : st.unexpected_clsrom ≠ "") (hres : st.result = []) :
    decodeFinish st = Except.ok [("", TimeField.str "", st.unexpected_clsrom)] := by
  have h1 : ¬(st.clsrom.data.getLast? = some ')' ∧ st.brackets > 0) := by
    rw [hcl]
    exact fun hc => absurd hc.1 (by decide)
  simp only [decodeFinish, hres]
  rw [if_neg h1, if_pos ⟨hday, htime, hcl, hunx, rfl⟩]
  rfl

/-- C5 witness: the loop state reached by `"(室)"` produces the single
fallback entry with the empty-string time component. -/
theorem decode_only_classroom_fallback_witness :
    decodeFinish ⟨[], 3, 0, false, "", "", "室", [], ""⟩ =
      Except.ok [("", TimeField.str "", "室")] :=
  decode_only_classroom_fallback ⟨[], 3, 0, false, "", "", "室", [], ""⟩
    rfl rfl rfl (by decide) rfl

/-! ## Claim C8: change-status markers -/

/-- C8 counterexample: a row whose images are the neutral marker plus an
unrecognized marker passes the assertion and yields the null status — the
unrecognized marker does not cause an extraction error as the claim
states. -/
theorem co_chg_unrecognized_counterexample :
    co_chg_of ["images/courseweb.gif", "images/unknown.gif"] = Except.ok none := by
  rfl

/-- C8 (amended): the status is the cancelled/added/modified tag exactly
per the first matching marker (so exactly per the present marker when the
three are mutually exclusive); with none of the three markers, the status
is null when the row has no images at all or contains the neutral marker
(regardless of further unrecognized images), and an extraction error is
raised only when images are present, none of the three markers matches,
and the neutral marker is absent. -/
theorem co_chg_characterization (imgs : List String) :
    (imgs.contains "images/cancel.gif" = true →
      co_chg_of imgs = Except.ok (some "停開")) ∧
    (imgs.contains "images/cancel.gif" = false →
      imgs.contains "images/add.gif" = true →
      co_chg_of imgs = Except.ok (some "加開")) ∧
    (imgs.contains "images/cancel.gif" = false →
      imgs.contains "images/add.gif" = false →
      imgs.contains "images/chg.gif" = true →
      co_chg_of imgs = Except.ok (some "異動")) ∧
    (imgs.contains "images/cancel.gif" = false →
      imgs.contains "images/add.gif" = false →
      imgs.contains "images/chg.gif" = false →
      (imgs = [] ∨ imgs.contains "images/courseweb.gif" = true) →
      co_chg_of imgs = Except.ok none) ∧
    (imgs.contains "images/cancel.gif" = false →
      imgs.contains "images/add.gif" = false →
      imgs.contains "images/chg.gif" = false →
      imgs ≠ [] →
      imgs.contains "images/courseweb.gif" = false →
      co_chg_of imgs = Except.error "AssertionError: unrecognized marker image") := by
  refine ⟨?_, ?_, ?_, ?_, ?_⟩
  · intro hcan
    simp_all [co_chg_of]
  · intro hcan hadd
    simp_all [co_chg_of]
  · intro hcan hadd hchg
    simp_all [co_chg_of]
  · intro hcan hadd hchg hn
    rcases hn with rfl | hcw
    · simp [co_chg_of]
    · simp_all [co_chg_of]
  · intro hcan hadd hchg hne hcw
    simp_all [co_chg_of, List.length_eq_zero]

/-- C8 witness: a cancelled-marker row gets the cancelled tag, and a row
with only an unknown image raises the extraction error. -/
theorem co_chg_characterization_witness :
    co_chg_of ["images/cancel.gif"] = Except.ok (some "停開") ∧
    co_chg_of ["images/zzz.gif"] =
      Except.error "AssertionError: unrecognized marker image" := by
  constructor
  · exact (co_chg_characterization ["images/cancel.gif"]).1 rfl
  · exact (co_chg_characterization ["images/zzz.gif"]).2.2.2.2 rfl rfl rfl
      (by decide) rfl
